import Mathlib

/-!
Verification of the QA-Playwright page-object framework.

Python strings are embedded as lists of characters (`PyStr`); Python string
methods used by the source (`lower`, `replace`) are embedded below.  Page
state that the framework reads from the browser (element text, the cart
badge, displayed product lists) is passed to the embedded operations as
explicit arguments.
-/

/-- Embedding of a Python string as a list of characters. -/
abbrev PyStr := List Char

/-- Embedding of Python `str.lower()` (ASCII case mapping, which covers every
string the framework applies it to). -/
def pyLower (s : PyStr) : PyStr := s.map Char.toLower

/-- Does `pat` occur at the very start of `s`? (helper for `pyReplace`). -/
def leadMatch : PyStr → PyStr → Bool
  | [], _ => true
  | _ :: _, [] => false
  | p :: ps, c :: cs => p == c && leadMatch ps cs

/-- Embedding of Python `str.replace(old, new)` for a non-empty `old`:
replace the non-overlapping occurrences of `old` left to right.  (The source
only ever calls `replace` with a single-character, hence non-empty, `old`;
for `old = []` this embedding is the identity.) -/
def pyReplace (old new : PyStr) : PyStr → PyStr
  | [] => []
  | c :: rest =>
    if !old.isEmpty && leadMatch old (c :: rest) then
      new ++ pyReplace old new (rest.drop (old.length - 1))
    else
      c :: pyReplace old new rest
termination_by s => s.length
decreasing_by
· simp [List.length_drop]; omega
· simp

/-- Identifier derivation written in
`InventoryPage.add_product_to_cart_by_name` (src/pages/inventory_page.py:189):
`product_name.lower().replace(" ", "-").replace("(", "").replace(")", "")`. -/
def inventory_add_data_test_name (product_name : PyStr) : PyStr :=
  pyReplace [')'] [] (pyReplace ['('] [] (pyReplace [' '] ['-'] (pyLower product_name)))

/-- Identifier derivation written in
`InventoryPage.remove_product_from_cart_by_name` (src/pages/inventory_page.py:205),
the same expression as the add side. -/
def inventory_remove_data_test_name (product_name : PyStr) : PyStr :=
  pyReplace [')'] [] (pyReplace ['('] [] (pyReplace [' '] ['-'] (pyLower product_name)))

/-- Identifier derivation written in `CartPage.remove_item_by_name`
(src/pages/cart_page.py:119), again the same expression. -/
def cart_remove_data_test_name (item_name : PyStr) : PyStr :=
  pyReplace [')'] [] (pyReplace ['('] [] (pyReplace [' '] ['-'] (pyLower item_name)))

/-- The selector clicked by `InventoryPage.add_product_to_cart_by_name`
(src/pages/inventory_page.py:190). -/
def add_to_cart_selector (product_name : PyStr) : PyStr :=
  "[data-test=\x27add-to-cart-".data ++ inventory_add_data_test_name product_name ++ "\x27]".data

/-- The selector clicked by `CartPage.remove_item_by_name`
(src/pages/cart_page.py:120). -/
def cart_remove_selector (item_name : PyStr) : PyStr :=
  "[data-test=\x27remove-".data ++ cart_remove_data_test_name item_name ++ "\x27]".data

/-- The derivation as the specification describes it: lower-case the name,
turn every space into a hyphen, and drop all parentheses. -/
def derive_per_spec (s : PyStr) : PyStr :=
  ((s.map Char.toLower).map (fun c => if c = ' ' then '-' else c)).filter
    (fun c => !(c == '(' || c == ')'))

/-- Character class of the regular expression `[\d.]+` used by
`extract_price` (src/utils/helpers.py:23): an ASCII digit or a dot. -/
def isPriceChar (c : Char) : Bool := c.isDigit || c == '.'

/-- Embedding of `re.search(r"[\d.]+", price_string)`: the leftmost maximal
run of digit/dot characters, or `none` when no such character occurs. -/
def firstPriceRun : PyStr → Option PyStr
  | [] => none
  | c :: rest =>
    if isPriceChar c then some (List.takeWhile isPriceChar (c :: rest))
    else firstPriceRun rest

/-- Base-10 value of a list of ASCII digits. -/
def digitsVal (ds : PyStr) : ℕ :=
  ds.foldl (fun a c => 10 * a + (c.toNat - '0'.toNat)) 0

/-- Exact decimal value of a digits-and-dot run: the digits before the first
dot are the integer part, the digits after it the fractional part. -/
def runValue (r : PyStr) : ℚ :=
  (digitsVal (r.takeWhile (fun c => !(c == '.'))) : ℚ) +
    (digitsVal ((r.dropWhile (fun c => !(c == '.'))).drop 1) : ℚ) /
      10 ^ ((r.dropWhile (fun c => !(c == '.'))).drop 1).length

/-- Embedding of Python `float(r)` on the strings `extract_price` passes it
(runs over digits and dots): the conversion succeeds exactly when the run
contains at least one digit and at most one dot, and yields the exact
decimal value (the binary floating-point result is modelled by the exact
rational). -/
def pyFloatOfRun (r : PyStr) : Option ℚ :=
  if r.count '.' ≤ 1 ∧ r.any Char.isDigit then some (runValue r) else none

/-- Embedding of `extract_price` (src/utils/helpers.py:13-26): search for
the first digits-and-dot run, convert it with `float`, and fail with
`ValueError` either from the explicit raise (no run) or propagated from
`float` (conversion failure). -/
def extract_price (s : PyStr) : Except PyStr ℚ :=
  match firstPriceRun s with
  | some r =>
    match pyFloatOfRun r with
    | some q => .ok q
    | none => .error ("could not convert string to float: ".data ++ r)
  | none => .error ("Could not extract price from: ".data ++ s)

/-- Declarative description (following the claim) of the first maximal run
of digit/dot characters of `s`: `s = pre ++ r ++ post` where `r` is a
non-empty run of class characters, no class character occurs in `pre` (the
run is leftmost) and `post` does not begin with one (the run is maximal). -/
def IsFirstMaximalRun (s r : PyStr) : Prop :=
  ∃ pre post, s = pre ++ r ++ post ∧ r ≠ [] ∧
    (∀ c ∈ r, isPriceChar c) ∧ (∀ c ∈ pre, ¬ isPriceChar c) ∧
    (∀ c, post.head? = some c → ¬ isPriceChar c)

/-- Claim-side validity of a digits-and-dot numeral: at most one dot and at
least one digit, so "." and "1.2.3" are invalid. -/
def ValidNumeral (r : PyStr) : Prop := r.count '.' ≤ 1 ∧ r.any Char.isDigit

/-- Round-half-to-even of a rational to an integer, the tie-breaking rule of
Python `round`; the binary floating-point operand is modelled by the exact
rational it displays as. -/
def roundHalfEven (q : ℚ) : ℤ :=
  if q - ⌊q⌋ < 1 / 2 then ⌊q⌋
  else if 1 / 2 < q - ⌊q⌋ then ⌊q⌋ + 1
  else if Even ⌊q⌋ then ⌊q⌋ else ⌊q⌋ + 1

/-- Embedding of Python `round(x, 2)`: round-half-to-even at two decimal
places. -/
def pyRound2 (q : ℚ) : ℚ := (roundHalfEven (q * 100) : ℚ) / 100

/-- The displayed summary texts of the checkout-step-two page that
`CheckoutStepTwoPage` reads: subtotal, tax and total labels. -/
structure CheckoutStepTwoTotals where
  subtotal_text : PyStr
  tax_text : PyStr
  total_text : PyStr

/-- Failure of `CheckoutStepTwoPage.expect_total_correct`: a `ValueError`
escaping one of its `extract_price` calls, or the assertion failure whose
message carries the total, subtotal and tax values
(src/pages/checkout_page.py:311). -/
inductive TotalCheckError where
  | valueError (msg : PyStr)
  | assertionError (total subtotal tax : ℚ)

/-- Embedding of `CheckoutStepTwoPage.expect_total_correct`
(src/pages/checkout_page.py:305-312): read subtotal, tax and total with
`extract_price` in that order, then assert that the total equals the
subtotal plus the tax rounded to two decimal places. -/
def expect_total_correct (p : CheckoutStepTwoTotals) : Except TotalCheckError Unit :=
  match extract_price p.subtotal_text with
  | .error m => .error (.valueError m)
  | .ok subtotal =>
    match extract_price p.tax_text with
    | .error m => .error (.valueError m)
    | .ok tax =>
      match extract_price p.total_text with
      | .error m => .error (.valueError m)
      | .ok total =>
        if total = pyRound2 (subtotal + tax) then .ok ()
        else .error (.assertionError total subtotal tax)

/-- Embedding of Python `sorted(l)`: the stable ascending sort (any sorted
permutation, as sorted lists that are permutations of each other agree). -/
def pySorted {α : Type} [LinearOrder α] (l : List α) : List α :=
  List.insertionSort (· ≤ ·) l

/-- Embedding of Python `sorted(l, reverse=True)`: the stable descending
sort. -/
def pySortedReverse {α : Type} [LinearOrder α] (l : List α) : List α :=
  List.insertionSort (· ≥ ·) l

/-- Embedding of `InventoryPage.expect_products_sorted_by_name_asc`
(src/pages/inventory_page.py:293-297): the displayed names must equal a
sorted copy of themselves. -/
def expect_products_sorted_by_name_asc (names : List PyStr) : Prop :=
  names = pySorted names

/-- Embedding of `InventoryPage.expect_products_sorted_by_name_desc`
(src/pages/inventory_page.py:299-303). -/
def expect_products_sorted_by_name_desc (names : List PyStr) : Prop :=
  names = pySortedReverse names

/-- Embedding of `InventoryPage.expect_products_sorted_by_price_asc`
(src/pages/inventory_page.py:305-309). -/
def expect_products_sorted_by_price_asc (prices : List ℚ) : Prop :=
  prices = pySorted prices

/-- Embedding of `InventoryPage.expect_products_sorted_by_price_desc`
(src/pages/inventory_page.py:311-315). -/
def expect_products_sorted_by_price_desc (prices : List ℚ) : Prop :=
  prices = pySortedReverse prices

/-- Decimal rendering of a natural number, embedding Python `str(n)` for a
non-negative count. -/
def natToDecimal (n : ℕ) : PyStr :=
  if n < 10 then [Nat.digitChar n]
  else natToDecimal (n / 10) ++ [Nat.digitChar (n % 10)]
decreasing_by exact Nat.div_lt_self (by omega) (by omega)

/-- Embedding of Python `int(t)` on badge-like text: a non-empty string of
ASCII digits parses to its base-10 value, anything else raises
`ValueError`. -/
def pyIntOfText (t : PyStr) : Option ℕ :=
  if t ≠ [] ∧ t.all Char.isDigit then some (digitsVal t) else none

/-- The cart badge as the framework observes it: `none` when the badge
element is absent or hidden, `some t` when it is visible with text `t`. -/
abbrev CartBadge := Option PyStr

/-- Embedding of `InventoryPage.get_cart_count`
(src/pages/inventory_page.py:253-263): 0 when the badge is not visible, 0
when its text is empty, otherwise `int(text)` (whose `ValueError` on
non-numeric text propagates). -/
def get_cart_count (badge : CartBadge) : Except PyStr ℕ :=
  match badge with
  | none => .ok 0
  | some t =>
    if t = [] then .ok 0
    else
      match pyIntOfText t with
      | some n => .ok n
      | none => .error ("invalid literal for int with base 10: ".data ++ t)

/-- Embedding of `InventoryPage.expect_cart_count`
(src/pages/inventory_page.py:281-291): for an expected count of 0 the badge
must be hidden, for a positive count the badge text must equal the decimal
rendering of the expected count. -/
def expect_cart_count (expected : ℕ) (badge : CartBadge) : Prop :=
  if expected = 0 then badge = none else badge = some (natToDecimal expected)

/-- Modelled from the spec: the SauceDemo application's cart state, which is
not part of this repository (the page objects only click its rendered
controls).  The spec treats the cart as the collection of added items whose
count the badge displays; it is modelled as the list of item names in the
cart. -/
abbrev AppCartState := List PyStr

/-- Modelled from the spec: the application effect of the click performed by
`InventoryPage.add_product_to_cart_by_name` — the named item enters the
cart. -/
def app_add_to_cart (s : AppCartState) (item : PyStr) : AppCartState :=
  s ++ [item]

/-- Modelled from the spec: the application effect of the click performed by
`InventoryPage.remove_product_from_cart_by_name` — the named item leaves
the cart. -/
def app_remove_from_cart (s : AppCartState) (item : PyStr) : AppCartState :=
  s.erase item

/-- Modelled from the spec: the cart badge renders the number of items in
the cart and is hidden when the cart is empty. -/
def app_cart_badge (s : AppCartState) : CartBadge :=
  if s.length = 0 then none else some (natToDecimal s.length)

/-- The page-load call issued by `BasePage.navigate`
(src/pages/base_page.py:36-46): the composed URL together with the
`wait_for_load_state("networkidle", timeout)` wait performed by
`wait_for_page_load` (src/utils/helpers.py:42-52). -/
structure NavigationCall where
  url : PyStr
  load_state : PyStr
  timeout_ms : ℕ

/-- Embedding of `BasePage.navigate`: the URL is
`f"\x7bself.base_url\x7d/\x7bpath\x7d"` when the path is non-empty and the
bare base URL otherwise, and the subsequent wait targets the network-idle
state with the configured timeout. -/
def navigate (base_url : PyStr) (timeout : ℕ) (path : PyStr) : NavigationCall :=
  { url := if path ≠ [] then base_url ++ "/".data ++ path else base_url
    load_state := "networkidle".data
    timeout_ms := timeout }

/-- Outcome of the blocking wait for the network-idle load state: it fails
with the driver's navigation-timeout condition when the page settles only
after the configured timeout. -/
inductive NavOutcome where
  | settled
  | navigationTimeout
deriving DecidableEq

/-- The wait issued by `wait_for_page_load`: block until the network is
idle (the page settles) or the timeout elapses. -/
def wait_for_page_load_outcome (settle_ms timeout_ms : ℕ) : NavOutcome :=
  if settle_ms ≤ timeout_ms then .settled else .navigationTimeout

/-- An operating-system environment, the map consulted by `os.getenv`. -/
def EnvMap := PyStr → Option PyStr

/-- Embedding of `os.getenv(key, default)`. -/
def pyGetenv (env : EnvMap) (key default_value : PyStr) : PyStr :=
  (env key).getD default_value

/-- The configuration record built by the `Settings` class
(src/config/settings.py:25-47). -/
structure Settings where
  BASE_URL : PyStr
  STANDARD_USER : PyStr
  LOCKED_OUT_USER : PyStr
  PROBLEM_USER : PyStr
  PERFORMANCE_USER : PyStr
  ERROR_USER : PyStr
  VISUAL_USER : PyStr
  PASSWORD : PyStr
  HEADLESS : Bool
  SLOW_MO : ℕ
  TIMEOUT : ℕ
  SCREENSHOT_ON_FAILURE : Bool
  VIDEO_ON_FAILURE : Bool
deriving DecidableEq

/-- Embedding of the `Settings` class body: every field reads its
environment variable with the documented default, the integer fields pass
through `int(...)` (whose failure on a malformed value aborts the load) and
the boolean fields compare the lower-cased text with "true". -/
def loadSettings (env : EnvMap) : Option Settings :=
  match pyIntOfText (pyGetenv env "SLOW_MO".data "100".data),
        pyIntOfText (pyGetenv env "TIMEOUT".data "30000".data) with
  | some slow_mo, some timeout_val =>
    some
      { BASE_URL := pyGetenv env "BASE_URL".data "https://www.saucedemo.com".data
        STANDARD_USER := pyGetenv env "STANDARD_USER".data "standard_user".data
        LOCKED_OUT_USER := pyGetenv env "LOCKED_OUT_USER".data "locked_out_user".data
        PROBLEM_USER := pyGetenv env "PROBLEM_USER".data "problem_user".data
        PERFORMANCE_USER := pyGetenv env "PERFORMANCE_USER".data "performance_glitch_user".data
        ERROR_USER := pyGetenv env "ERROR_USER".data "error_user".data
        VISUAL_USER := pyGetenv env "VISUAL_USER".data "visual_user".data
        PASSWORD := pyGetenv env "PASSWORD".data "secret_sauce".data
        HEADLESS := pyLower (pyGetenv env "HEADLESS".data "false".data) == "true".data
        SLOW_MO := slow_mo
        TIMEOUT := timeout_val
        SCREENSHOT_ON_FAILURE :=
          pyLower (pyGetenv env "SCREENSHOT_ON_FAILURE".data "true".data) == "true".data
        VIDEO_ON_FAILURE :=
          pyLower (pyGetenv env "VIDEO_ON_FAILURE".data "true".data) == "true".data }
  | _, _ => none

/-- The named user-identifier environment variables defined by `Settings`
with their defaults: the "Test credentials" block minus the shared
password (src/config/settings.py:32-37). -/
def userIdentifierDefaults : List (PyStr × PyStr) :=
  [("STANDARD_USER".data, "standard_user".data),
   ("LOCKED_OUT_USER".data, "locked_out_user".data),
   ("PROBLEM_USER".data, "problem_user".data),
   ("PERFORMANCE_USER".data, "performance_glitch_user".data),
   ("ERROR_USER".data, "error_user".data),
   ("VISUAL_USER".data, "visual_user".data)]

/-- The empty environment: every configuration variable unset. -/
def emptyEnv : EnvMap := fun _ => none

/-- A cart page object together with the rendered cart rows it reads:
`page_id` models the Python object identity (the framework's methods return
`self`), `items` the displayed cart items. -/
structure CartPageState where
  page_id : ℕ
  items : List PyStr

/-- Embedding of the `while` loop of `CartPage.remove_all_items`
(src/pages/cart_page.py:143-153) with explicit fuel: while the displayed
item count is positive, click remove at index 0 (`remove_item_by_index(0)`,
whose effect on the rendered cart is the abstract `step`), recording the
index clicked at each iteration. -/
def remove_all_items_loop (step : List PyStr → List PyStr) :
    ℕ → List PyStr → List PyStr × List ℕ
  | 0, items => (items, [])
  | fuel + 1, items =>
    if 0 < items.length then
      ((remove_all_items_loop step fuel (step items)).1,
        0 :: (remove_all_items_loop step fuel (step items)).2)
    else (items, [])

/-- Embedding of `CartPage.remove_all_items`: run the removal loop — fuel
equal to the starting item count suffices, since under the claim's
precondition each iteration removes exactly one item — and return the same
page object. -/
def remove_all_items (step : List PyStr → List PyStr) (p : CartPageState) :
    CartPageState × List ℕ :=
  ({ page_id := p.page_id,
     items := (remove_all_items_loop step p.items.length p.items).1 },
   (remove_all_items_loop step p.items.length p.items).2)

theorem leadMatch_single (a c : Char) (cs : PyStr) :
    leadMatch [a] (c :: cs) = (a == c) := by
  simp [leadMatch]

theorem pyReplace_single_char (a b : Char) (s : PyStr) :
    pyReplace [a] [b] s = s.map (fun c => if c = a then b else c) := by
  induction s with
  | nil => simp [pyReplace]
  | cons c rest ih =>
    rw [pyReplace]
    by_cases h : c = a
    · subst h
      simp [leadMatch, ih]
    · have hba : (a == c) = false := by
        simp [beq_iff_eq]
        exact fun he => h he.symm
      simp [leadMatch, hba, h, ih]

theorem pyReplace_delete_char (a : Char) (s : PyStr) :
    pyReplace [a] [] s = s.filter (fun c => !(c == a)) := by
  induction s with
  | nil => simp [pyReplace]
  | cons c rest ih =>
    rw [pyReplace]
    by_cases h : c = a
    · subst h
      simp [leadMatch, ih]
    · have hba : (a == c) = false := by
        simp [beq_iff_eq]
        exact fun he => h he.symm
      simp [leadMatch, hba, h, ih]

theorem inventory_add_derive_eq_spec (p : PyStr) :
    inventory_add_data_test_name p = derive_per_spec p := by
  unfold inventory_add_data_test_name derive_per_spec pyLower
  rw [pyReplace_single_char, pyReplace_delete_char, pyReplace_delete_char,
    List.filter_filter]
  refine List.filter_congr ?_
  intro c _
  by_cases h1 : c = '(' <;> by_cases h2 : c = ')' <;> simp [h1, h2, Bool.and_comm]

/-- C1: adding to the cart on the inventory page and removing from the cart
page both target controls by the identifier obtained from the product's
display name by lower-casing it, replacing each space with a hyphen and
stripping all parentheses; the add control is
`[data-test='add-to-cart-<derived>']`, the remove control is
`[data-test='remove-<derived>']`, and the two page objects compute the same
derivation. -/
theorem add_remove_target_derived_identifier (p : PyStr) :
    add_to_cart_selector p =
      "[data-test=\x27add-to-cart-".data ++ derive_per_spec p ++ "\x27]".data ∧
    cart_remove_selector p =
      "[data-test=\x27remove-".data ++ derive_per_spec p ++ "\x27]".data ∧
    inventory_add_data_test_name p = cart_remove_data_test_name p := by
  refine ⟨?_, ?_, rfl⟩
  · rw [add_to_cart_selector, inventory_add_derive_eq_spec]
  · rw [cart_remove_selector]
    have : cart_remove_data_test_name p = derive_per_spec p :=
      inventory_add_derive_eq_spec p
    rw [this]

theorem takeWhile_of_append (p : Char → Bool) (r post : PyStr)
    (hall : ∀ c ∈ r, p c) (hpost : ∀ c, post.head? = some c → ¬ p c) :
    List.takeWhile p (r ++ post) = r := by
  induction r with
  | nil =>
    cases post with
    | nil => rfl
    | cons d ds =>
      have hd : p d = false := by simpa using hpost d rfl
      simp [List.takeWhile_cons, hd]
  | cons a r' ih =>
    have ha : p a := hall a (by simp)
    simp only [List.cons_append, List.takeWhile_cons, ha, if_pos]
    simp only [List.cons.injEq, true_and]
    exact ih (fun c hc => hall c (by simp [hc]))

theorem head_dropWhile_false (p : Char → Bool) (l : PyStr) (c : Char)
    (h : (l.dropWhile p).head? = some c) : p c = false := by
  induction l with
  | nil => simp [List.dropWhile] at h
  | cons a t ih =>
    by_cases hpa : p a
    · rw [List.dropWhile_cons, if_pos hpa] at h
      exact ih h
    · rw [List.dropWhile_cons, if_neg hpa] at h
      simp only [List.head?_cons, Option.some.injEq] at h
      subst h
      simpa using hpa

theorem firstPriceRun_iff (s r : PyStr) :
    firstPriceRun s = some r ↔ IsFirstMaximalRun s r := by
  induction s with
  | nil =>
    simp only [firstPriceRun]
    constructor
    · intro h; cases h
    · rintro ⟨pre, post, hs, hne, -⟩
      rw [List.append_assoc] at hs
      rcases List.append_eq_nil.mp hs.symm with ⟨-, h2⟩
      rcases List.append_eq_nil.mp h2 with ⟨h3, -⟩
      exact absurd h3 hne
  | cons c rest ih =>
    by_cases hc : isPriceChar c
    · rw [firstPriceRun, if_pos hc]
      constructor
      · intro h
        have hr : r = List.takeWhile isPriceChar (c :: rest) := (Option.some.inj h).symm
        refine ⟨[], List.dropWhile isPriceChar (c :: rest), ?_, ?_, ?_, ?_, ?_⟩
        · rw [hr, List.nil_append, List.takeWhile_append_dropWhile]
        · rw [hr, List.takeWhile_cons, if_pos hc]
          exact List.cons_ne_nil _ _
        · intro x hx
          rw [hr] at hx
          exact List.mem_takeWhile_imp hx
        · intro x hx; cases hx
        · intro x hx
          simp [head_dropWhile_false _ _ _ hx]
      · rintro ⟨pre, post, hs, hne, hall, hpre, hpost⟩
        have hpre_nil : pre = [] := by
          cases pre with
          | nil => rfl
          | cons d ds =>
            have hd : d = c := by
              rw [List.cons_append, List.cons_append] at hs
              exact (List.cons.injEq _ _ _ _ ▸ hs).1.symm
            exact absurd (hd ▸ hc) (hpre d (by simp))
        subst hpre_nil
        rw [List.nil_append] at hs
        rw [hs, takeWhile_of_append _ _ _ hall hpost]
    · rw [firstPriceRun, if_neg hc, ih]
      constructor
      · rintro ⟨pre, post, hs, hne, hall, hpre, hpost⟩
        refine ⟨c :: pre, post, by simp [hs], hne, hall, ?_, hpost⟩
        intro x hx
        rcases List.mem_cons.mp hx with h1 | h2
        · rw [h1]; exact hc
        · exact hpre x h2
      · rintro ⟨pre, post, hs, hne, hall, hpre, hpost⟩
        cases pre with
        | nil =>
          rw [List.nil_append] at hs
          cases r with
          | nil => exact absurd rfl hne
          | cons a r' =>
            rw [List.cons_append] at hs
            have ha : a = c := ((List.cons.injEq _ _ _ _ ▸ hs).1).symm
            exact absurd (ha ▸ hall a (by simp)) hc
        | cons d ds =>
          rw [List.cons_append] at hs
          have h2 : rest = ds ++ r ++ post := (List.cons.injEq _ _ _ _ ▸ hs).2
          exact ⟨ds, post, h2, hne, hall, fun x hx => hpre x (by simp [hx]), hpost⟩

theorem pyFloatOfRun_of_valid (r : PyStr) (hv : ValidNumeral r) :
    pyFloatOfRun r = some (runValue r) := by
  unfold ValidNumeral at hv
  unfold pyFloatOfRun
  exact if_pos hv

theorem pyFloatOfRun_of_invalid (r : PyStr) (hnv : ¬ ValidNumeral r) :
    pyFloatOfRun r = none := by
  unfold ValidNumeral at hnv
  unfold pyFloatOfRun
  exact if_neg hnv

theorem extract_price_eq_ok (s r : PyStr) (h : firstPriceRun s = some r)
    (hv : ValidNumeral r) : extract_price s = .ok (runValue r) := by
  simp only [extract_price, h, pyFloatOfRun_of_valid r hv]

theorem extract_price_err_of_invalid (s r : PyStr) (h : firstPriceRun s = some r)
    (hnv : ¬ ValidNumeral r) :
    extract_price s = .error ("could not convert string to float: ".data ++ r) := by
  simp only [extract_price, h, pyFloatOfRun_of_invalid r hnv]

theorem extract_price_err_of_none (s : PyStr) (h : firstPriceRun s = none) :
    extract_price s = .error ("Could not extract price from: ".data ++ s) := by
  simp only [extract_price, h]

theorem runValue_example : runValue "29.99".data = 2999 / 100 := by
  have e1 : digitsVal (List.takeWhile (fun c => !(c == '.')) "29.99".data) = 29 := by
    decide
  have e2 : digitsVal (List.drop 1 (List.dropWhile (fun c => !(c == '.')) "29.99".data)) = 99 := by
    decide
  have e3 : (List.drop 1 (List.dropWhile (fun c => !(c == '.')) "29.99".data)).length = 2 := by
    decide
  unfold runValue
  rw [e1, e2, e3]
  norm_num

/-- C8: `extract_price` returns the decimal value of the first maximal run
of digit/dot characters of its input, raises `ValueError` exactly when no
such run exists or the first run is not a valid numeral (more than one dot,
or no digit at all, as in "." or "1.2.3"), and in particular maps "$29.99"
to 29.99. -/
theorem extract_price_first_run_spec (s : PyStr) :
    ((∃ e, extract_price s = .error e) ↔
      (¬ ∃ r, IsFirstMaximalRun s r) ∨ ∃ r, IsFirstMaximalRun s r ∧ ¬ ValidNumeral r) ∧
    (∀ r, IsFirstMaximalRun s r → ValidNumeral r → extract_price s = .ok (runValue r)) ∧
    extract_price "$29.99".data = .ok (2999 / 100) := by
  refine ⟨⟨?_, ?_⟩, ?_, ?_⟩
  · rintro ⟨e, he⟩
    cases h : firstPriceRun s with
    | none =>
      refine Or.inl ?_
      rintro ⟨r, hr⟩
      rw [← firstPriceRun_iff, h] at hr
      cases hr
    | some r0 =>
      refine Or.inr ⟨r0, (firstPriceRun_iff s r0).mp h, ?_⟩
      intro hv
      rw [extract_price_eq_ok s r0 h hv] at he
      cases he
  · intro hor
    cases h : firstPriceRun s with
    | none => exact ⟨_, extract_price_err_of_none s h⟩
    | some r0 =>
      rcases hor with hnone | ⟨r, hr, hnv⟩
      · exact absurd ⟨r0, (firstPriceRun_iff s r0).mp h⟩ hnone
      · have hrr : r0 = r := by
          have h' := (firstPriceRun_iff s r).mpr hr
          rw [h] at h'
          exact Option.some.inj h'
        subst hrr
        exact ⟨_, extract_price_err_of_invalid s r0 h hnv⟩
  · intro r hr hv
    exact extract_price_eq_ok s r ((firstPriceRun_iff s r).mpr hr) hv
  · have h1 : firstPriceRun "$29.99".data = some "29.99".data := by decide
    have hv : ValidNumeral "29.99".data := ⟨by decide, by decide⟩
    rw [extract_price_eq_ok _ _ h1 hv, runValue_example]

/-- Witness for C8 at the concrete input "$29.99", whose first maximal
digit/dot run is "29.99". -/
theorem extract_price_first_run_spec_witness :
    IsFirstMaximalRun "$29.99".data "29.99".data ∧ ValidNumeral "29.99".data ∧
    extract_price "$29.99".data = .ok (runValue "29.99".data) := by
  have hrun : IsFirstMaximalRun "$29.99".data "29.99".data := by
    refine ⟨"$".data, [], by decide, by decide, by decide, by decide, ?_⟩
    intro c hc
    cases hc
  have hval : ValidNumeral "29.99".data := ⟨by decide, by decide⟩
  exact ⟨hrun, hval, (extract_price_first_run_spec "$29.99".data).2.1 _ hrun hval⟩

theorem runValue_parts (r : PyStr) (ip fp n : ℕ)
    (h1 : digitsVal (List.takeWhile (fun c => !(c == '.')) r) = ip)
    (h2 : digitsVal (List.drop 1 (List.dropWhile (fun c => !(c == '.')) r)) = fp)
    (h3 : (List.drop 1 (List.dropWhile (fun c => !(c == '.')) r)).length = n) :
    runValue r = (ip : ℚ) + (fp : ℚ) / 10 ^ n := by
  unfold runValue
  rw [h1, h2, h3]

/-- C2: whenever the three displayed amounts of the checkout-step-two page
carry numeric values, `expect_total_correct` succeeds exactly when the
displayed total equals the displayed subtotal plus the displayed tax
rounded to two decimal places, and otherwise fails with an assertion error
carrying the total, subtotal and tax values. -/
theorem expect_total_correct_iff (p : CheckoutStepTwoTotals)
    (subtotal tax total : ℚ)
    (hs : extract_price p.subtotal_text = .ok subtotal)
    (ht : extract_price p.tax_text = .ok tax)
    (hg : extract_price p.total_text = .ok total) :
    (expect_total_correct p = .ok () ↔ total = pyRound2 (subtotal + tax)) ∧
    (total ≠ pyRound2 (subtotal + tax) →
      expect_total_correct p = .error (.assertionError total subtotal tax)) := by
  have hred : expect_total_correct p =
      if total = pyRound2 (subtotal + tax) then .ok ()
      else .error (.assertionError total subtotal tax) := by
    simp only [expect_total_correct, hs, ht, hg]
  refine ⟨⟨?_, ?_⟩, ?_⟩
  · intro h
    by_contra hne
    rw [hred, if_neg hne] at h
    cases h
  · intro h
    rw [hred, if_pos h]
  · intro hne
    rw [hred, if_neg hne]

/-- Witness for C2 on a page displaying subtotal $29.99, tax $2.40 and
total $32.39 (which is the correctly rounded sum). -/
theorem expect_total_correct_iff_witness :
    extract_price "$29.99".data = .ok (2999 / 100) ∧
    extract_price "$2.40".data = .ok (12 / 5) ∧
    extract_price "$32.39".data = .ok (3239 / 100) ∧
    (expect_total_correct ⟨"$29.99".data, "$2.40".data, "$32.39".data⟩ = .ok () ↔
      (3239 / 100 : ℚ) = pyRound2 (2999 / 100 + 12 / 5)) := by
  have h1 : extract_price "$29.99".data = .ok (2999 / 100) := by
    rw [extract_price_eq_ok _ "29.99".data (by decide) ⟨by decide, by decide⟩,
      runValue_example]
  have h2 : extract_price "$2.40".data = .ok (12 / 5) := by
    rw [extract_price_eq_ok _ "2.40".data (by decide) ⟨by decide, by decide⟩,
      runValue_parts "2.40".data 2 40 2 (by decide) (by decide) (by decide)]
    norm_num
  have h3 : extract_price "$32.39".data = .ok (3239 / 100) := by
    rw [extract_price_eq_ok _ "32.39".data (by decide) ⟨by decide, by decide⟩,
      runValue_parts "32.39".data 32 39 2 (by decide) (by decide) (by decide)]
    norm_num
  exact ⟨h1, h2, h3, (expect_total_correct_iff _ _ _ _ h1 h2 h3).1⟩

theorem pySorted_perm_eq {α : Type} [LinearOrder α] {l₁ l₂ : List α}
    (h : l₁.Perm l₂) : pySorted l₁ = pySorted l₂ := by
  have hs₁ : List.Sorted (· ≤ ·) (pySorted l₁) := List.sorted_insertionSort _ _
  have hs₂ : List.Sorted (· ≤ ·) (pySorted l₂) := List.sorted_insertionSort _ _
  have hperm : (pySorted l₁).Perm (pySorted l₂) :=
    (List.perm_insertionSort _ l₁).trans (h.trans (List.perm_insertionSort _ l₂).symm)
  exact List.eq_of_perm_of_sorted hperm hs₁ hs₂

theorem pySortedReverse_perm_eq {α : Type} [LinearOrder α] {l₁ l₂ : List α}
    (h : l₁.Perm l₂) : pySortedReverse l₁ = pySortedReverse l₂ := by
  have hs₁ : List.Sorted (· ≥ ·) (pySortedReverse l₁) := List.sorted_insertionSort _ _
  have hs₂ : List.Sorted (· ≥ ·) (pySortedReverse l₂) := List.sorted_insertionSort _ _
  have hperm : (pySortedReverse l₁).Perm (pySortedReverse l₂) :=
    (List.perm_insertionSort _ l₁).trans (h.trans (List.perm_insertionSort _ l₂).symm)
  exact List.eq_of_perm_of_sorted hperm hs₁ hs₂

/-- C4: when the displayed sequence after a sort operation is a permutation
of the pre-sort sequence (the product set is unchanged), each of the four
sortedness assertions succeeds exactly when the displayed sequence equals
the semantically sorted copy — ascending or descending, by name or by
price — of the pre-sort sequence. -/
theorem expect_products_sorted_iff
    (curNames preNames : List PyStr) (curPrices prePrices : List ℚ)
    (hn : curNames.Perm preNames) (hp : curPrices.Perm prePrices) :
    (expect_products_sorted_by_name_asc curNames ↔ curNames = pySorted preNames) ∧
    (expect_products_sorted_by_name_desc curNames ↔ curNames = pySortedReverse preNames) ∧
    (expect_products_sorted_by_price_asc curPrices ↔ curPrices = pySorted prePrices) ∧
    (expect_products_sorted_by_price_desc curPrices ↔ curPrices = pySortedReverse prePrices) := by
  refine ⟨?_, ?_, ?_, ?_⟩
  · unfold expect_products_sorted_by_name_asc
    rw [pySorted_perm_eq hn]
  · unfold expect_products_sorted_by_name_desc
    rw [pySortedReverse_perm_eq hn]
  · unfold expect_products_sorted_by_price_asc
    rw [pySorted_perm_eq hp]
  · unfold expect_products_sorted_by_price_desc
    rw [pySortedReverse_perm_eq hp]

/-- Witness for C4 with displayed names ["b", "a"] (a permutation of the
pre-sort ["a", "b"]) and displayed prices [2, 1] (a permutation of the
pre-sort [1, 2]). -/
theorem expect_products_sorted_iff_witness :
    (([['b'], ['a']] : List PyStr).Perm [['a'], ['b']]) ∧
    (([2, 1] : List ℚ).Perm [1, 2]) ∧
    (expect_products_sorted_by_name_asc [['b'], ['a']] ↔
      ([['b'], ['a']] : List PyStr) = pySorted [['a'], ['b']]) ∧
    (expect_products_sorted_by_price_desc [2, 1] ↔
      ([2, 1] : List ℚ) = pySortedReverse [1, 2]) := by
  refine ⟨by decide, by decide, ?_, ?_⟩
  · exact (expect_products_sorted_iff [['b'], ['a']] [['a'], ['b']] [2, 1] [1, 2]
      (by decide) (by decide)).1
  · exact (expect_products_sorted_iff [['b'], ['a']] [['a'], ['b']] [2, 1] [1, 2]
      (by decide) (by decide)).2.2.2

theorem digitChar_isDigit (d : ℕ) (h : d < 10) : (Nat.digitChar d).isDigit = true := by
  have hall : ∀ d, d < 10 → (Nat.digitChar d).isDigit = true := by decide
  exact hall d h

theorem natToDecimal_ne_nil (n : ℕ) : natToDecimal n ≠ [] := by
  rw [natToDecimal]
  split
  · simp
  · simp

theorem natToDecimal_all_digits (n : ℕ) : (natToDecimal n).all Char.isDigit = true := by
  induction n using Nat.strong_induction_on with
  | _ n ih =>
    rw [natToDecimal]
    split
    · next h => simp [digitChar_isDigit _ h]
    · next h =>
      rw [List.all_append]
      rw [ih (n / 10) (Nat.div_lt_self (by omega) (by omega))]
      simp [digitChar_isDigit (n % 10) (Nat.mod_lt _ (by omega))]

theorem digitsVal_append_digit (a : PyStr) (c : Char) :
    digitsVal (a ++ [c]) = 10 * digitsVal a + (c.toNat - '0'.toNat) := by
  unfold digitsVal
  rw [List.foldl_append]
  rfl

theorem digitsVal_digitChar (d : ℕ) (h : d < 10) : digitsVal [Nat.digitChar d] = d := by
  have hall : ∀ d, d < 10 → digitsVal [Nat.digitChar d] = d := by decide
  exact hall d h

theorem digitsVal_natToDecimal (n : ℕ) : digitsVal (natToDecimal n) = n := by
  induction n using Nat.strong_induction_on with
  | _ n ih =>
    rw [natToDecimal]
    split
    · next h => exact digitsVal_digitChar n h
    · next h =>
      rw [digitsVal_append_digit, ih (n / 10) (Nat.div_lt_self (by omega) (by omega))]
      have hd : (Nat.digitChar (n % 10)).toNat - '0'.toNat = n % 10 := by
        have hall : ∀ d, d < 10 → (Nat.digitChar d).toNat - '0'.toNat = d := by decide
        exact hall _ (Nat.mod_lt _ (by omega))
      rw [hd]
      omega

theorem pyIntOfText_natToDecimal (n : ℕ) : pyIntOfText (natToDecimal n) = some n := by
  unfold pyIntOfText
  rw [if_pos ⟨natToDecimal_ne_nil n, natToDecimal_all_digits n⟩, digitsVal_natToDecimal]

theorem get_cart_count_natToDecimal (n : ℕ) :
    get_cart_count (some (natToDecimal n)) = .ok n := by
  simp only [get_cart_count]
  rw [if_neg (natToDecimal_ne_nil n), pyIntOfText_natToDecimal]

/-- C9: a hidden or absent cart badge yields count 0 without failing, an
empty badge text also yields 0, and a badge showing the decimal rendering
of n yields n; dually, `expect_cart_count 0` asserts that the badge is
hidden, while for positive n it asserts that the badge text equals the
decimal rendering of n. -/
theorem get_cart_count_badge_spec (badge : CartBadge) (n : ℕ) :
    (badge = none → get_cart_count badge = .ok 0) ∧
    (badge = some [] → get_cart_count badge = .ok 0) ∧
    (badge = some (natToDecimal n) → get_cart_count badge = .ok n) ∧
    (expect_cart_count 0 badge ↔ badge = none) ∧
    (0 < n → (expect_cart_count n badge ↔ badge = some (natToDecimal n))) := by
  refine ⟨?_, ?_, ?_, ?_, ?_⟩
  · rintro rfl; rfl
  · rintro rfl; rfl
  · rintro rfl; exact get_cart_count_natToDecimal n
  · unfold expect_cart_count
    rw [if_pos rfl]
  · intro hn
    unfold expect_cart_count
    rw [if_neg (by omega)]

/-- Witness for C9 at a badge visible with text "2" and expected count 2. -/
theorem get_cart_count_badge_spec_witness :
    get_cart_count (some (natToDecimal 2)) = .ok 2 ∧
    (0 : ℕ) < 2 ∧
    (expect_cart_count 2 (some (natToDecimal 2)) ↔
      some (natToDecimal 2) = some (natToDecimal 2)) := by
  refine ⟨(get_cart_count_badge_spec (some (natToDecimal 2)) 2).2.2.1 rfl,
    by decide,
    (get_cart_count_badge_spec (some (natToDecimal 2)) 2).2.2.2.2 (by decide)⟩

/-- C5: adding an item and then removing the same item returns the cart
item count read from the badge to its value before the add, for every
starting cart state. -/
theorem add_then_remove_restores_cart_count (s : AppCartState) (x : PyStr) :
    get_cart_count (app_cart_badge (app_remove_from_cart (app_add_to_cart s x) x)) =
      get_cart_count (app_cart_badge s) := by
  have hlen : (app_remove_from_cart (app_add_to_cart s x) x).length = s.length := by
    unfold app_remove_from_cart app_add_to_cart
    rw [List.length_erase_of_mem (by simp), List.length_append]
    simp
  unfold app_cart_badge
  rw [hlen]

/-- C6: `navigate(p)` composes the target URL from the configured base URL
and the relative path — `base ++ "/" ++ p` for non-empty `p` and exactly
`base` for the empty path — issues the page load with a wait on the
network-idle state bounded by the configured timeout, and that wait fails
with a navigation-timeout condition exactly when the page settles later
than the timeout. -/
theorem navigate_builds_url_and_waits (base_url : PyStr) (timeout_ms : ℕ)
    (path : PyStr) (settle_ms : ℕ) :
    (navigate base_url timeout_ms path).url =
      (if path = [] then base_url else base_url ++ "/".data ++ path) ∧
    (navigate base_url timeout_ms path).load_state = "networkidle".data ∧
    (navigate base_url timeout_ms path).timeout_ms = timeout_ms ∧
    wait_for_page_load_outcome settle_ms timeout_ms =
      (if settle_ms ≤ timeout_ms then .settled else .navigationTimeout) := by
  refine ⟨?_, rfl, rfl, rfl⟩
  by_cases h : path = [] <;> simp [navigate, h]

/-- C7 counterexample: the configuration defines six named user
identifiers (standard, locked-out, problem, performance-glitch, error and
visual users), not five as claimed. -/
theorem settings_user_identifiers_not_five :
    userIdentifierDefaults.length = 6 ∧ userIdentifierDefaults.length ≠ 5 := by
  exact ⟨rfl, by decide⟩

/-- C7 (amended): with no environment variable set, `Settings` loads the
documented defaults — base URL "https://www.saucedemo.com", shared
password "secret_sauce", headless false, slow-motion delay 100, timeout
30000, screenshot- and video-on-failure true — and defines exactly six
named user identifiers, each defaulted to its SauceDemo username. -/
theorem settings_defaults_amended :
    loadSettings emptyEnv = some
      { BASE_URL := "https://www.saucedemo.com".data
        STANDARD_USER := "standard_user".data
        LOCKED_OUT_USER := "locked_out_user".data
        PROBLEM_USER := "problem_user".data
        PERFORMANCE_USER := "performance_glitch_user".data
        ERROR_USER := "error_user".data
        VISUAL_USER := "visual_user".data
        PASSWORD := "secret_sauce".data
        HEADLESS := false
        SLOW_MO := 100
        TIMEOUT := 30000
        SCREENSHOT_ON_FAILURE := true
        VIDEO_ON_FAILURE := true } ∧
    userIdentifierDefaults.length = 6 := by
  exact ⟨by decide, rfl⟩

theorem remove_all_items_loop_spec (step : List PyStr → List PyStr)
    (hstep : ∀ l, 0 < l.length → (step l).length = l.length - 1) :
    ∀ (n : ℕ) (items : List PyStr), items.length = n →
      (remove_all_items_loop step n items).1.length = 0 ∧
      (remove_all_items_loop step n items).2 = List.replicate n 0 := by
  intro n
  induction n with
  | zero =>
    intro items h
    rw [remove_all_items_loop]
    exact ⟨h, rfl⟩
  | succ m ih =>
    intro items h
    have hpos : 0 < items.length := by omega
    have hlen : (step items).length = m := by
      rw [hstep items hpos]
      omega
    rcases ih (step items) hlen with ⟨ih1, ih2⟩
    rw [remove_all_items_loop, if_pos hpos]
    exact ⟨ih1, by rw [List.replicate_succ]; exact congrArg _ ih2⟩

/-- C10: under the precondition that each `remove_item_by_index(0)` click
removes exactly one displayed item, `remove_all_items` terminates after
exactly as many iterations as there are items — clicking index 0 every
time — leaves the cart item count at 0, and returns the same page
object. -/
theorem remove_all_items_empties_cart (step : List PyStr → List PyStr)
    (hstep : ∀ l, 0 < l.length → (step l).length = l.length - 1)
    (p : CartPageState) :
    (remove_all_items step p).1.items.length = 0 ∧
    (remove_all_items step p).1.page_id = p.page_id ∧
    (remove_all_items step p).2 = List.replicate p.items.length 0 := by
  rcases remove_all_items_loop_spec step hstep p.items.length p.items rfl with ⟨h1, h2⟩
  exact ⟨h1, rfl, h2⟩

/-- Witness for C10: removing the head at each step empties a two-item
cart in two iterations, both at index 0. -/
theorem remove_all_items_empties_cart_witness :
    (∀ l : List PyStr, 0 < l.length → (List.tail l).length = l.length - 1) ∧
    (remove_all_items List.tail ⟨7, [['a'], ['b']]⟩).1.items.length = 0 ∧
    (remove_all_items List.tail ⟨7, [['a'], ['b']]⟩).1.page_id = 7 ∧
    (remove_all_items List.tail ⟨7, [['a'], ['b']]⟩).2 = List.replicate 2 0 := by
  have htail : ∀ l : List PyStr, 0 < l.length → (List.tail l).length = l.length - 1 := by
    intro l hl
    cases l with
    | nil => simp at hl
    | cons a t => simp
  have h := remove_all_items_empties_cart List.tail htail ⟨7, [['a'], ['b']]⟩
  exact ⟨htail, h.1, h.2.1, h.2.2⟩
